import Mathlib

/-!
# NewProject: Patient / Observation schemas and the patient router

A shallow embedding of `Patient.js`, `Observation.js` and `patients.js`.

* The two Mongoose schemas become record types together with the checks the
  schema declarations attach to them: the validators `required` and `enum`,
  the ObjectId cast of `subject`, and the cast of every `Date` path.
* The collection behind the `Patient` model becomes an explicit list of
  documents in insertion order; every route handler is a function from the
  collection before the request to the response and the collection after it.
* Every awaited storage call may reject.  The rejection a call meets is an
  explicit argument (`Faults`), so that the `catch` blocks of the handlers are
  part of the model.

Request bodies are taken after JSON decoding, with a string where the schema
says `String`, a number where it says `Number` and a list of entries where it
declares an array.  JSON has no dates: a value for a `Date` path arrives as a
number or as a string, and the cast that turns it into a date may fail.  What
the handlers themselves inspect is kept: whether a field is there at all, and
whether the value supplied is truthy.
-/

namespace NewProject

/-! ## Identities -/

/-- Identity of a stored document, kept as the canonical lower-case text of an
ObjectId (24 hexadecimal characters). -/
structure ObjectId where
  hex : String
deriving DecidableEq, Repr

/-- One hexadecimal digit, either case. -/
def isHexChar (c : Char) : Bool :=
  ('0' ≤ c && c ≤ '9') || ('a' ≤ c && c ≤ 'f') || ('A' ≤ c && c ≤ 'F')

/-- The cast Mongoose applies to an id token (`req.params.id`, or the
`subject` of an observation): a token of exactly 24 hexadecimal characters
denotes an ObjectId, any other token does not. -/
def castObjectId (tok : String) : Option ObjectId :=
  if tok.data.length = 24 ∧ tok.data.all isHexChar = true then
    some ⟨String.mk (tok.data.map Char.toLower)⟩
  else
    none

/-! ## Errors thrown by the model layer -/

/-- What a rejected storage call throws.  The handlers read `kind` and
`message` only. -/
structure Err where
  name : String
  kind : Option String
  message : String
deriving DecidableEq, Repr

/-- The error of one schema path, as collected by document validation. -/
structure FieldError where
  path : String
  kind : String
  message : String
deriving DecidableEq, Repr

/-- Error thrown by `findById` / `findByIdAndDelete` when the id token cannot
be cast: a `CastError` whose `kind` is the name of the target type. -/
def castError (tok : String) : Err :=
  { name := "CastError"
    kind := some "ObjectId"
    message := "Cast to ObjectId failed for value " ++ tok ++ " at path _id for model Patient" }

/-- Text of a `ValidationError`: the model name followed by every failing path
with its own message. -/
def validationMessage (model : String) (errs : List FieldError) : String :=
  model ++ " validation failed: " ++
    ", ".intercalate (errs.map (fun e => e.path ++ ": " ++ e.message))

/-- Error thrown by `save` when document validation fails.  A
`ValidationError` carries the per-path errors; it has no `kind` of its own. -/
def validationError (model : String) (errs : List FieldError) : Err :=
  { name := "ValidationError"
    kind := none
    message := validationMessage model errs }

/-! ## `Patient.js` -/

/-- Entry of `identifier`: `{ system: String, value: String }`.  The `_id`
Mongoose gives every array entry of its own is left out, here and in
`HumanName`. -/
structure Identifier where
  system : Option String
  value : Option String
deriving DecidableEq, Repr

/-- Entry of `name`: `{ family: { type: String, required: true }, given: [String] }`. -/
structure HumanName where
  family : Option String
  given : List String
deriving DecidableEq, Repr

/-- A document of the `Patient` model.  Dates are milliseconds since the epoch. -/
structure Patient where
  _id : ObjectId
  identifier : List Identifier
  name : List HumanName
  gender : Option String
  birthDate : Option Int
  createdAt : Int
deriving DecidableEq, Repr

/-- The values `enum` lists for `gender`. -/
def genderEnum : List String := ["male", "female", "other", "unknown"]

/-- Failure of `required: true` on `name.<i>.family`. -/
def familyRequired (i : Nat) : FieldError :=
  { path := "name." ++ toString i ++ ".family"
    kind := "required"
    message := "Path `family` is required." }

/-- Failure of the `enum` validator of `gender`. -/
def genderNotInEnum (g : String) : FieldError :=
  { path := "gender"
    kind := "enum"
    message := "`" ++ g ++ "` is not a valid enum value for path `gender`." }

/-- The `required` validator of a `String` path: the value must be there and
must not be the empty string. -/
def familyErrors (i : Nat) : Option String → List FieldError
  | none => [familyRequired i]
  | some f => if f = "" then [familyRequired i] else []

/-- Validation of the `name` array: each entry is validated as a
sub-document, `i` being the index of the first entry of the list. -/
def nameErrors : Nat → List HumanName → List FieldError
  | _, [] => []
  | i, n :: rest => familyErrors i n.family ++ nameErrors (i + 1) rest

/-- The `enum` validator of `gender`; a document without gender passes. -/
def genderErrors : Option String → List FieldError
  | none => []
  | some g => if g ∈ genderEnum then [] else [genderNotInEnum g]

/-- Document validation as declared by `PatientSchema`: `identifier`,
`birthDate` and `createdAt` carry no validator. -/
def Patient.validate (p : Patient) : List FieldError :=
  nameErrors 0 p.name ++ genderErrors p.gender

/-- A Mongoose document in memory, before `save`: the values of its paths, and
the failures recorded when a value assigned to a path could not be cast. -/
structure Draft where
  doc : Patient
  castErrors : List FieldError
deriving DecidableEq, Repr

/-- What document validation reports at `save`: the recorded cast failures
and the failures of the schema validators. -/
def Draft.errors (d : Draft) : List FieldError :=
  d.castErrors ++ d.doc.validate

/-! ## Request bodies -/

/-- A value supplied for a `Date` path: a number of milliseconds since the
epoch, or a string `raw` together with the time `new Date(raw)` reads from it
(`none` when it reads no date). -/
inductive DateInput where
  | millis (n : Int)
  | text (raw : String) (parsed : Option Int)
deriving DecidableEq, Repr

/-- The time values a JavaScript `Date` can hold: at most 8.64e15 milliseconds
either side of the epoch.  A `Date` built from any other number is invalid. -/
def validTime (t : Int) : Bool :=
  decide (-8640000000000000 ≤ t ∧ t ≤ 8640000000000000)

/-- The empty string, which the cast of the `Date` schema type turns into no
date at all, without failing. -/
def DateInput.isNull : DateInput → Bool
  | .millis _ => false
  | .text raw _ => raw = ""

/-- The date the cast of the `Date` schema type yields; `none` when it yields
none. -/
def DateInput.cast : DateInput → Option Int
  | .millis n => if validTime n = true then some n else none
  | .text raw parsed =>
    match parsed with
    | some t => if raw ≠ "" ∧ validTime t = true then some t else none
    | none => none

/-- The cast of the `Date` schema type fails: the value is not the empty
string and no valid date comes out of it. -/
def DateInput.castFails (d : DateInput) : Bool :=
  !d.isNull && d.cast.isNone

/-- The value as the message of a cast failure prints it.  A number is printed
in decimal; the exponent form JavaScript uses from 1e21 on is not
reproduced. -/
def DateInput.render : DateInput → String
  | .millis n => toString n
  | .text raw _ => raw

/-- The JavaScript type of the value. -/
def DateInput.typeName : DateInput → String
  | .millis _ => "number"
  | .text _ _ => "string"

/-- Failure of the cast of a `Date` path, as document validation reports it. -/
def dateCastError (path : String) (d : DateInput) : FieldError :=
  { path := path
    kind := "date"
    message := "Cast to date failed for value \"" ++ d.render ++ "\" (type " ++ d.typeName ++
      ") at path \"" ++ path ++ "\"" }

/-- Assignment of a supplied value to a `Date` path that holds `old`: the cast
value is stored; when the cast fails the path keeps what it held and the
failure is recorded on the document.  Nothing supplied leaves the path as it
is. -/
def setDate (path : String) (old : Option Int) : Option DateInput → Option Int × List FieldError
  | none => (old, [])
  | some d => if d.castFails = true then (old, [dateCastError path d]) else (d.cast, [])

/-- The fields of `req.body` the router reads.  `none` is a field that is
absent; any other member of the body is ignored by the router. -/
structure PatientBody where
  identifier : Option (List Identifier)
  name : Option (List HumanName)
  gender : Option String
  birthDate : Option DateInput
deriving DecidableEq, Repr

/-- JavaScript truthiness of an array-valued body field: an array is truthy
even when it is empty. -/
def truthyArray {α : Type} : Option (List α) → Bool
  | none => false
  | some _ => true

/-- JavaScript truthiness of a string-valued body field: the empty string is
falsy. -/
def truthyString : Option String → Bool
  | none => false
  | some s => !(s = "")

/-- JavaScript truthiness of a date-valued body field: the number `0` and the
empty string are falsy. -/
def truthyDate : Option DateInput → Bool
  | none => false
  | some (.millis n) => !(n = 0)
  | some (.text raw _) => !(raw = "")

/-! ## The collection and the storage calls -/

/-- The `patients` collection, in insertion order. -/
abbrev Db := List Patient

/-- The ids of a collection are unique, as the `_id` index guarantees. -/
def Db.WF (db : Db) : Prop := (db.map (fun p => p._id)).Nodup

instance (db : Db) : Decidable db.WF := by
  unfold Db.WF
  infer_instance

/-- Lookup of a document by `_id`. -/
def Db.findDoc (db : Db) (id : ObjectId) : Option Patient :=
  db.find? (fun p => p._id = id)

/-- Removal of the document with the given `_id`. -/
def Db.deleteDoc (db : Db) (id : ObjectId) : Db :=
  db.eraseP (fun p => p._id = id)

/-- Replacement of the stored document that has the `_id` of `doc`. -/
def Db.replaceDoc : Db → Patient → Db
  | [], _ => []
  | p :: rest, doc => if p._id = doc._id then doc :: rest else p :: Db.replaceDoc rest doc

/-- The rejections the storage driver answers with during one request:
`query` is thrown by `find`, `findById` and `findByIdAndDelete`, `save` is
thrown by `save` once validation has passed.  `none` is a call that goes
through. -/
structure Faults where
  query : Option Err
  save : Option Err
deriving DecidableEq, Repr

/-- A request during which the storage answers every call. -/
def Faults.healthy : Faults := { query := none, save := none }

/-- Error of an insert whose `_id` is already taken. -/
def duplicateKey (id : ObjectId) : Err :=
  { name := "MongoServerError"
    kind := none
    message := "E11000 duplicate key error collection: patients index: _id_ dup key: " ++ id.hex }

/-- Error of a `save` on a loaded document that is no longer stored. -/
def documentNotFound (id : ObjectId) : Err :=
  { name := "DocumentNotFoundError"
    kind := none
    message := "No document found for query _id: " ++ id.hex ++ " on model Patient" }

/-- `Patient.find()`. -/
def find (fs : Faults) (db : Db) : Except Err (List Patient) :=
  match fs.query with
  | some e => .error e
  | none => .ok db

/-- `Patient.findById(id)`: the id token is cast before the query is sent. -/
def findById (fs : Faults) (db : Db) (tok : String) : Except Err (Option Patient) :=
  match castObjectId tok with
  | none => .error (castError tok)
  | some id =>
    match fs.query with
    | some e => .error e
    | none => .ok (db.findDoc id)

/-- `Patient.findByIdAndDelete(id)`: answers the removed document, or nothing
when no document has that id. -/
def findByIdAndDelete (fs : Faults) (db : Db) (tok : String) :
    Except Err (Option Patient × Db) :=
  match castObjectId tok with
  | none => .error (castError tok)
  | some id =>
    match fs.query with
    | some e => .error e
    | none => .ok (db.findDoc id, db.deleteDoc id)

/-- `doc.save()`: the whole document is validated first, and a failure is
thrown before anything is sent to the storage; a new document is then
inserted, a loaded one is written back in place.  The saved document is
answered. -/
def save (fs : Faults) (db : Db) (d : Draft) (isNew : Bool) : Except Err (Patient × Db) :=
  if d.errors = [] then
    match fs.save with
    | some e => .error e
    | none =>
      match db.findDoc d.doc._id, isNew with
      | none, true => .ok (d.doc, db ++ [d.doc])
      | some _, true => .error (duplicateKey d.doc._id)
      | some _, false => .ok (d.doc, db.replaceDoc d.doc)
      | none, false => .error (documentNotFound d.doc._id)
  else
    .error (validationError "Patient" d.errors)

/-! ## `patients.js` -/

/-- What a handler sends with `res.json`. -/
inductive Payload where
  | patients (ps : List Patient)
  | patient (p : Patient)
  | message (m : String)
deriving DecidableEq, Repr

/-- Status code and JSON body of a response; `res.json` without `res.status`
answers 200. -/
structure Response where
  status : Nat
  body : Payload
deriving DecidableEq, Repr

/-- `res.status(404).json({ message: 'Patient not found' })`. -/
def notFound : Response := { status := 404, body := .message "Patient not found" }

/-- `res.status(400).json({ message: 'Invalid Patient ID' })`. -/
def invalidId : Response := { status := 400, body := .message "Invalid Patient ID" }

/-- `res.status(500).json({ message: 'Server Error' })`. -/
def serverError : Response := { status := 500, body := .message "Server Error" }

/-- The `catch` block of the three `/:id` routes. -/
def catchById (err : Err) : Response :=
  if err.kind = some "ObjectId" then invalidId else serverError

/-- The document `new Patient(...)` builds from the four body fields: an
absent array is the empty array, `birthDate` goes through the cast of its
path, `createdAt` takes its default `Date.now`, and the `_id` is generated. -/
def newPatient (now : Int) (newId : ObjectId) (body : PatientBody) : Draft :=
  { doc :=
      { _id := newId
        identifier := body.identifier.getD []
        name := body.name.getD []
        gender := body.gender
        birthDate := (setDate "birthDate" none body.birthDate).1
        createdAt := now }
    castErrors := (setDate "birthDate" none body.birthDate).2 }

/-- The four guarded assignments of the PUT handler. -/
def applyUpdate (patient : Patient) (body : PatientBody) : Draft :=
  let patient :=
    if truthyArray body.identifier then { patient with identifier := body.identifier.getD [] }
    else patient
  let patient :=
    if truthyArray body.name then { patient with name := body.name.getD [] } else patient
  let patient :=
    if truthyString body.gender then { patient with gender := body.gender } else patient
  let birthDate :=
    if truthyDate body.birthDate then setDate "birthDate" patient.birthDate body.birthDate
    else (patient.birthDate, [])
  { doc := { patient with birthDate := birthDate.1 }, castErrors := birthDate.2 }

namespace router

/-- `router.get('/')`. -/
def getAll (fs : Faults) (db : Db) : Response × Db :=
  match find fs db with
  | .ok patients => ({ status := 200, body := .patients patients }, db)
  | .error _ => (serverError, db)

/-- `router.get('/:id')`. -/
def getById (fs : Faults) (db : Db) (tok : String) : Response × Db :=
  match findById fs db tok with
  | .ok none => (notFound, db)
  | .ok (some patient) => ({ status := 200, body := .patient patient }, db)
  | .error err => (catchById err, db)

/-- `router.post('/')`: `now` and `newId` are the clock reading and the
generated id of this request. -/
def post (fs : Faults) (now : Int) (newId : ObjectId) (db : Db) (body : PatientBody) :
    Response × Db :=
  match save fs db (newPatient now newId body) true with
  | .ok (created, db') => ({ status := 201, body := .patient created }, db')
  | .error err => ({ status := 400, body := .message err.message }, db)

/-- `router.put('/:id')`. -/
def put (fs : Faults) (db : Db) (tok : String) (body : PatientBody) : Response × Db :=
  match findById fs db tok with
  | .ok none => (notFound, db)
  | .ok (some patient) =>
    match save fs db (applyUpdate patient body) false with
    | .ok (updatedPatient, db') => ({ status := 200, body := .patient updatedPatient }, db')
    | .error err => (catchById err, db)
  | .error err => (catchById err, db)

/-- `router.delete('/:id')`. -/
def delete (fs : Faults) (db : Db) (tok : String) : Response × Db :=
  match findByIdAndDelete fs db tok with
  | .ok (none, db') => (notFound, db')
  | .ok (some _, db') => ({ status := 200, body := .message "Patient deleted" }, db')
  | .error err => (catchById err, db)

end router

/-! ## `Observation.js` -/

/-- Entry of `code.coding`. -/
structure Coding where
  system : Option String
  code : Option String
  display : Option String
deriving DecidableEq, Repr

/-- The `code` path. -/
structure CodeableConcept where
  coding : List Coding
  text : Option String
deriving DecidableEq, Repr

/-- The `valueQuantity` path. -/
structure Quantity where
  value : Option Rat
  unit : Option String
  system : Option String
  code : Option String
deriving DecidableEq, Repr

/-- A candidate observation: the object handed to `new Observation(...)`.
`status` and `subject` are the string and the id token as supplied, the two
dates are the values supplied for their `Date` paths; `code` and
`valueQuantity` hold strings and numbers as their paths declare. -/
structure ObservationInput where
  status : Option String
  code : Option CodeableConcept
  subject : Option String
  effectiveDateTime : Option DateInput
  valueQuantity : Option Quantity
  issued : Option DateInput
deriving DecidableEq, Repr

/-- The values `enum` lists for `status`. -/
def statusEnum : List String :=
  ["registered", "preliminary", "final", "amended", "corrected", "cancelled",
    "entered-in-error", "unknown"]

/-- The status of the document: the schema default `final` when none is
supplied. -/
def ObservationInput.effectiveStatus (o : ObservationInput) : String :=
  o.status.getD "final"

/-- The `enum` validator of `status`. -/
def statusErrors (s : String) : List FieldError :=
  if s ∈ statusEnum then []
  else [{ path := "status", kind := "enum",
          message := "`" ++ s ++ "` is not a valid enum value for path `status`." }]

/-- The checks on `subject`: `required: true`, and the cast to
`Schema.Types.ObjectId` of the token supplied. -/
def subjectErrors : Option String → List FieldError
  | none =>
    [{ path := "subject", kind := "required", message := "Path `subject` is required." }]
  | some tok =>
    match castObjectId tok with
    | some _ => []
    | none => [{ path := "subject", kind := "ObjectId",
                 message := "Cast to ObjectId failed for value " ++ tok ++ " at path subject" }]

/-- The failure, if any, of the cast of a value supplied for a `Date` path of
a new document. -/
def dateErrors (path : String) (supplied : Option DateInput) : List FieldError :=
  (setDate path none supplied).2

/-- Document validation as declared by `ObservationSchema`: the validators of
`status` and `subject`, and the casts of the two `Date` paths (`issued` takes
its default `Date.now` when nothing is supplied).  `code` and `valueQuantity`
carry no validator. -/
def ObservationInput.validate (o : ObservationInput) : List FieldError :=
  statusErrors o.effectiveStatus ++ subjectErrors o.subject ++
    dateErrors "effectiveDateTime" o.effectiveDateTime ++ dateErrors "issued" o.issued

end NewProject

namespace NewProject

/-! ## Sample data -/

/-- A canonical id. -/
def idA : ObjectId := ⟨"0123456789abcdef01234567"⟩

/-- A second canonical id. -/
def idB : ObjectId := ⟨"aaaaaaaaaaaaaaaaaaaaaaaa"⟩

/-- The payload of the create example: Jane Doe, female. -/
def janeBody : PatientBody :=
  { identifier := none
    name := some [{ family := some "Doe", given := ["Jane"] }]
    gender := some "female"
    birthDate := none }

/-- The document created from `janeBody` at time 5 under `idA`. -/
def janeDoc : Patient := (newPatient 5 idA janeBody).doc

/-- A stored document with all four fields set. -/
def johnDoc : Patient :=
  { _id := idB
    identifier := [{ system := some "urn:nid", value := some "42" }]
    name := [{ family := some "Roe", given := ["John"] }]
    gender := some "male"
    birthDate := some 86400000
    createdAt := 1 }

/-- A body that supplies nothing. -/
def emptyBody : PatientBody :=
  { identifier := none, name := none, gender := none, birthDate := none }

/-- A driver failure that is neither a validation nor a cast error. -/
def networkError : Err :=
  { name := "MongoNetworkError"
    kind := none
    message := "connect ECONNREFUSED 127.0.0.1:27017" }

/-- A candidate observation that supplies a subject and a date string. -/
def obsJane : ObservationInput :=
  { status := none
    code := none
    subject := some "0123456789abcdef01234567"
    effectiveDateTime := some (.text "2024-01-01" (some 1704067200000))
    valueQuantity := none
    issued := none }

/-- The same candidate with a number of milliseconds no `Date` can hold. -/
def obsBadDate : ObservationInput :=
  { obsJane with effectiveDateTime := some (.millis 10000000000000000) }

/-! ## Lookup lemmas -/

theorem findById_of_cast_none (fs : Faults) (db : Db) (tok : String)
    (h : castObjectId tok = none) : findById fs db tok = .error (castError tok) := by
  simp [findById, h]

theorem findById_healthy (fs : Faults) (db : Db) (tok : String) (id : ObjectId)
    (h : castObjectId tok = some id) (hq : fs.query = none) :
    findById fs db tok = .ok (db.findDoc id) := by
  simp [findById, h, hq]

theorem findById_fault (fs : Faults) (db : Db) (tok : String) (id : ObjectId) (err : Err)
    (h : castObjectId tok = some id) (hq : fs.query = some err) :
    findById fs db tok = .error err := by
  simp [findById, h, hq]

theorem catchById_castError (tok : String) : catchById (castError tok) = invalidId := by
  simp [catchById, castError]

theorem catchById_of_kind_ne (err : Err) (h : err.kind ≠ some "ObjectId") :
    catchById err = serverError := by
  simp [catchById, h]

theorem Db.findDoc_id {db : Db} {id : ObjectId} {p : Patient} (h : db.findDoc id = some p) :
    p._id = id := by
  have := List.find?_some h
  simpa using this

theorem Db.findDoc_replaceDoc (db : Db) (doc q : Patient)
    (h : db.findDoc doc._id = some q) : (db.replaceDoc doc).findDoc doc._id = some doc := by
  induction db with
  | nil => simp [Db.findDoc] at h
  | cons a rest ih =>
    by_cases ha : a._id = doc._id
    · simp [Db.replaceDoc, Db.findDoc, ha]
    · have h2 : Db.findDoc rest doc._id = some q := by
        simpa [Db.findDoc, List.find?_cons, ha] using h
      have := ih h2
      simpa [Db.replaceDoc, Db.findDoc, List.find?_cons, ha] using this

theorem Db.findDoc_replaceDoc_ne (db : Db) (doc : Patient) (id : ObjectId)
    (h : id ≠ doc._id) : (db.replaceDoc doc).findDoc id = db.findDoc id := by
  induction db with
  | nil => rfl
  | cons a rest ih =>
    by_cases ha : a._id = doc._id
    · have h1 : ¬ a._id = id := fun e => h (e.symm.trans ha)
      have h3 : ¬ doc._id = id := fun e => h e.symm
      simp [Db.replaceDoc, Db.findDoc, List.find?_cons, ha, h3]
    · by_cases hb : a._id = id
      · subst hb
        simp [Db.replaceDoc, Db.findDoc, List.find?_cons, ha]
      · simpa [Db.replaceDoc, Db.findDoc, List.find?_cons, ha, hb] using ih

theorem applyUpdate_id (p : Patient) (body : PatientBody) :
    (applyUpdate p body).doc._id = p._id := by
  unfold applyUpdate
  split_ifs <;> rfl

theorem applyUpdate_createdAt (p : Patient) (body : PatientBody) :
    (applyUpdate p body).doc.createdAt = p.createdAt := by
  unfold applyUpdate
  split_ifs <;> rfl

theorem applyUpdate_identifier (p : Patient) (body : PatientBody) :
    (applyUpdate p body).doc.identifier =
      (match body.identifier with
       | some v => v
       | none => p.identifier) := by
  unfold applyUpdate
  cases body.identifier <;> simp [truthyArray] <;> split_ifs <;> rfl

theorem applyUpdate_name (p : Patient) (body : PatientBody) :
    (applyUpdate p body).doc.name =
      (match body.name with
       | some v => v
       | none => p.name) := by
  unfold applyUpdate
  cases body.name <;> simp [truthyArray] <;> split_ifs <;> rfl

theorem applyUpdate_gender (p : Patient) (body : PatientBody) :
    (applyUpdate p body).doc.gender =
      if truthyString body.gender = true then body.gender else p.gender := by
  unfold applyUpdate
  split_ifs <;> rfl

/-- The errors of a date assignment are empty exactly when the cast of the
supplied value, if any, does not fail. -/
theorem setDate_errors_eq_nil_iff (path : String) (old : Option Int)
    (supplied : Option DateInput) :
    (setDate path old supplied).2 = [] ↔ ∀ d, supplied = some d → d.castFails = false := by
  cases supplied with
  | none => simp [setDate]
  | some d => by_cases h : d.castFails = true <;> simp [setDate, h]

/-- A date assignment whose cast does not fail stores the cast value. -/
theorem setDate_value (path : String) (old : Option Int) (d : DateInput)
    (h : d.castFails = false) : (setDate path old (some d)).1 = d.cast := by
  simp [setDate, h]

theorem applyUpdate_birthDate_eq (p : Patient) (body : PatientBody) :
    (applyUpdate p body).doc.birthDate =
      (if truthyDate body.birthDate = true then
        setDate "birthDate" p.birthDate body.birthDate
      else (p.birthDate, [])).1 := by
  unfold applyUpdate
  cases truthyArray body.identifier <;> cases truthyArray body.name <;>
    cases truthyString body.gender <;> rfl

theorem applyUpdate_castErrors (p : Patient) (body : PatientBody) :
    (applyUpdate p body).castErrors =
      (if truthyDate body.birthDate = true then
        setDate "birthDate" p.birthDate body.birthDate
      else (p.birthDate, [])).2 := by
  unfold applyUpdate
  cases truthyArray body.identifier <;> cases truthyArray body.name <;>
    cases truthyString body.gender <;> rfl

theorem applyUpdate_birthDate (p : Patient) (body : PatientBody)
    (herr : (applyUpdate p body).castErrors = []) :
    (applyUpdate p body).doc.birthDate =
      if truthyDate body.birthDate = true then body.birthDate.bind DateInput.cast
      else p.birthDate := by
  rw [applyUpdate_birthDate_eq]
  rw [applyUpdate_castErrors] at herr
  by_cases h : truthyDate body.birthDate = true
  · rw [if_pos h] at herr ⊢
    rw [if_pos h]
    cases hb : body.birthDate with
    | none => rw [hb] at h; simp [truthyDate] at h
    | some d =>
      rw [hb] at herr
      have hf : d.castFails = false := (setDate_errors_eq_nil_iff _ _ _).mp herr d rfl
      simp [setDate, hf]
  · rw [if_neg h, if_neg h]

/-- A `save` of a loaded document that passes validation, on a storage that
accepts the write, stores the document in place of the old one. -/
theorem save_loaded_ok (fs : Faults) (db : Db) (d : Draft) (q : Patient)
    (hv : d.errors = []) (hs : fs.save = none) (hq : db.findDoc d.doc._id = some q) :
    save fs db d false = .ok (d.doc, db.replaceDoc d.doc) := by
  simp [save, hv, hs, hq]

/-- A `save` of a document that fails validation throws the validation error,
whatever the storage does. -/
theorem save_invalid (fs : Faults) (db : Db) (d : Draft) (isNew : Bool)
    (hv : d.errors ≠ []) :
    save fs db d isNew = .error (validationError "Patient" d.errors) := by
  simp [save, hv]

/-- A `save` that meets a rejection of the storage throws it. -/
theorem save_fault (fs : Faults) (db : Db) (d : Draft) (isNew : Bool) (err : Err)
    (hv : d.errors = []) (hs : fs.save = some err) :
    save fs db d isNew = .error err := by
  simp [save, hv, hs]

theorem catchById_status (err : Err) :
    (catchById err).status = 400 ∨ (catchById err).status = 500 := by
  unfold catchById
  split_ifs
  · left; rfl
  · right; rfl

/-! ## Validation lemmas -/

theorem familyErrors_eq_nil_iff (i : Nat) (v : Option String) :
    familyErrors i v = [] ↔ ∃ f, v = some f ∧ f ≠ "" := by
  cases v with
  | none => simp [familyErrors]
  | some f => by_cases hf : f = "" <;> simp [familyErrors, hf]

theorem nameErrors_eq_nil_iff (i : Nat) (names : List HumanName) :
    nameErrors i names = [] ↔ ∀ n ∈ names, ∃ f, n.family = some f ∧ f ≠ "" := by
  induction names generalizing i with
  | nil => simp [nameErrors]
  | cons a rest ih =>
    simp only [nameErrors, List.append_eq_nil, familyErrors_eq_nil_iff, ih (i + 1),
      List.forall_mem_cons]

theorem genderErrors_eq_nil_iff (v : Option String) :
    genderErrors v = [] ↔ ∀ g, v = some g → g ∈ genderEnum := by
  cases v with
  | none => simp [genderErrors]
  | some g => by_cases hg : g ∈ genderEnum <;> simp [genderErrors, hg]

/-- A patient document passes validation exactly when every entry of `name`
has a non-empty `family` and the gender, when there is one, is in the enum. -/
theorem Patient.validate_eq_nil_iff (p : Patient) :
    p.validate = [] ↔
      (∀ n ∈ p.name, ∃ f, n.family = some f ∧ f ≠ "") ∧
      (∀ g, p.gender = some g → g ∈ genderEnum) := by
  simp only [Patient.validate, List.append_eq_nil, nameErrors_eq_nil_iff,
    genderErrors_eq_nil_iff]

/-- What validation reports on a draft is empty exactly when no cast failed,
every entry of `name` has a non-empty `family` and the gender, when there is
one, is in the enum. -/
theorem Draft.errors_eq_nil_iff (d : Draft) :
    d.errors = [] ↔
      d.castErrors = [] ∧
      (∀ n ∈ d.doc.name, ∃ f, n.family = some f ∧ f ≠ "") ∧
      (∀ g, d.doc.gender = some g → g ∈ genderEnum) := by
  simp only [Draft.errors, List.append_eq_nil, Patient.validate_eq_nil_iff]

/-- An insert of a valid document under an unused id, on a storage that
accepts the write, appends it to the collection. -/
theorem save_new_ok (fs : Faults) (db : Db) (d : Draft)
    (hv : d.errors = []) (hs : fs.save = none) (hq : db.findDoc d.doc._id = none) :
    save fs db d true = .ok (d.doc, db ++ [d.doc]) := by
  simp [save, hv, hs, hq]

theorem Db.findDoc_append_new (db : Db) (doc : Patient) (h : db.findDoc doc._id = none) :
    Db.findDoc (db ++ [doc]) doc._id = some doc := by
  unfold Db.findDoc at h ⊢
  simp [List.find?_append, h]

theorem Db.findDoc_deleteDoc_self (db : Db) (id : ObjectId) (hwf : db.WF) :
    (db.deleteDoc id).findDoc id = none := by
  induction db with
  | nil => rfl
  | cons a rest ih =>
    have hwf2 : Db.WF rest := (List.nodup_cons.mp hwf).2
    have hnot : a._id ∉ rest.map (fun p => p._id) := (List.nodup_cons.mp hwf).1
    by_cases ha : a._id = id
    · subst ha
      have : Db.findDoc rest a._id = none := by
        unfold Db.findDoc
        rw [List.find?_eq_none]
        intro q hq hqa
        exact hnot (List.mem_map.mpr ⟨q, hq, by simpa using hqa⟩)
      simpa [Db.deleteDoc, List.eraseP_cons] using this
    · have := ih hwf2
      simpa [Db.deleteDoc, Db.findDoc, List.eraseP_cons, List.find?_cons, ha] using this

theorem Db.findDoc_deleteDoc_ne (db : Db) (id other : ObjectId) (h : other ≠ id) :
    (db.deleteDoc id).findDoc other = db.findDoc other := by
  induction db with
  | nil => rfl
  | cons a rest ih =>
    by_cases ha : a._id = id
    · subst ha
      have hb : ¬ a._id = other := fun e => h e.symm
      simp [Db.deleteDoc, Db.findDoc, List.eraseP_cons, List.find?_cons, hb]
    · by_cases hb : a._id = other
      · subst hb
        simp [Db.deleteDoc, Db.findDoc, List.eraseP_cons, List.find?_cons, ha]
      · simpa [Db.deleteDoc, Db.findDoc, List.eraseP_cons, List.find?_cons, ha, hb] using ih

theorem Db.length_deleteDoc (db : Db) (id : ObjectId) (p : Patient)
    (h : db.findDoc id = some p) : (db.deleteDoc id).length + 1 = db.length := by
  induction db with
  | nil => simp [Db.findDoc] at h
  | cons a rest ih =>
    by_cases ha : a._id = id
    · simp [Db.deleteDoc, List.eraseP_cons, ha]
    · have h2 : Db.findDoc rest id = some p := by
        simpa [Db.findDoc, List.find?_cons, ha] using h
      have := ih h2
      simpa [Db.deleteDoc, List.eraseP_cons, ha] using this

theorem Db.deleteDoc_eq_filter (db : Db) (id : ObjectId) (hwf : db.WF) :
    db.deleteDoc id = db.filter (fun q => !(q._id = id)) := by
  induction db with
  | nil => rfl
  | cons a rest ih =>
    have hwf2 : Db.WF rest := (List.nodup_cons.mp hwf).2
    have hnot : a._id ∉ rest.map (fun p => p._id) := (List.nodup_cons.mp hwf).1
    by_cases ha : a._id = id
    · subst ha
      have : rest.filter (fun q => !(q._id = a._id)) = rest := by
        rw [List.filter_eq_self]
        intro q hq
        have : q._id ≠ a._id := fun e => hnot (List.mem_map.mpr ⟨q, hq, e⟩)
        simpa using this
      simp [Db.deleteDoc, List.eraseP_cons, this]
    · have := ih hwf2
      simpa [Db.deleteDoc, List.eraseP_cons, List.filter_cons, ha] using this

/-- A rejection `err` of the storage that is not a cast error of the id is
answered 500 `Server Error` by List, Get by ID, Update by ID (whether the
lookup or the write is rejected) and Delete by ID, the collection being left
as it was. -/
theorem storage_failure_is_500_outside_create (err : Err) (hk : err.kind ≠ some "ObjectId") :
    (∀ (fs : Faults) (db : Db), fs.query = some err →
      router.getAll fs db = (serverError, db)) ∧
    (∀ (fs : Faults) (db : Db) (tok : String) (id : ObjectId),
      castObjectId tok = some id → fs.query = some err →
      router.getById fs db tok = (serverError, db)) ∧
    (∀ (fs : Faults) (db : Db) (tok : String) (id : ObjectId) (body : PatientBody),
      castObjectId tok = some id → fs.query = some err →
      router.put fs db tok body = (serverError, db)) ∧
    (∀ (fs : Faults) (db : Db) (tok : String) (id : ObjectId) (p : Patient)
      (body : PatientBody),
      castObjectId tok = some id → fs.query = none → db.findDoc id = some p →
      (applyUpdate p body).errors = [] → fs.save = some err →
      router.put fs db tok body = (serverError, db)) ∧
    (∀ (fs : Faults) (db : Db) (tok : String) (id : ObjectId),
      castObjectId tok = some id → fs.query = some err →
      router.delete fs db tok = (serverError, db)) := by
  have hcatch := catchById_of_kind_ne err hk
  refine ⟨?_, ?_, ?_, ?_, ?_⟩
  · intro fs db hq
    simp [router.getAll, find, hq]
  · intro fs db tok id hc hq
    simp [router.getById, findById_fault fs db tok id err hc hq, hcatch]
  · intro fs db tok id body hc hq
    simp [router.put, findById_fault fs db tok id err hc hq, hcatch]
  · intro fs db tok id p body hc hq hp hv hs
    simp [router.put, findById_healthy fs db tok id hc hq, hp,
      save_fault fs db _ false err hv hs, hcatch]
  · intro fs db tok id hc hq
    simp [router.delete, findByIdAndDelete, hc, hq, hcatch]

/-! ## Claims -/

/-- C2: an id token that cannot be cast makes the lookup fail with an error of
kind `ObjectId`, and each of Get by ID, Update by ID and Delete by ID then
answers 400 `Invalid Patient ID` (hence neither 404 nor 500), whatever the
collection, the body and the state of the storage; the collection is left as
it was. -/
theorem C2_invalid_id_is_400 (fs : Faults) (db : Db) (tok : String) (body : PatientBody)
    (h : castObjectId tok = none) :
    (∃ err, findById fs db tok = .error err ∧ err.kind = some "ObjectId") ∧
    (∃ err, findByIdAndDelete fs db tok = .error err ∧ err.kind = some "ObjectId") ∧
    router.getById fs db tok = (invalidId, db) ∧
    router.put fs db tok body = (invalidId, db) ∧
    router.delete fs db tok = (invalidId, db) ∧
    invalidId.status = 400 := by
  refine ⟨⟨castError tok, findById_of_cast_none fs db tok h, rfl⟩,
    ⟨castError tok, by simp [findByIdAndDelete, h], rfl⟩, ?_, ?_, ?_, rfl⟩
  · simp [router.getById, findById_of_cast_none fs db tok h, catchById_castError]
  · simp [router.put, findById_of_cast_none fs db tok h, catchById_castError]
  · simp [router.delete, findByIdAndDelete, h, catchById_castError]

/-- Witness of C2 at the token `not-an-id` on a collection holding one patient. -/
theorem C2_invalid_id_is_400_witness :
    castObjectId "not-an-id" = none ∧
    router.getById Faults.healthy [johnDoc] "not-an-id" = (invalidId, [johnDoc]) ∧
    router.put Faults.healthy [johnDoc] "not-an-id" janeBody = (invalidId, [johnDoc]) ∧
    router.delete Faults.healthy [johnDoc] "not-an-id" = (invalidId, [johnDoc]) :=
  have h := C2_invalid_id_is_400 Faults.healthy [johnDoc] "not-an-id" janeBody (by decide)
  ⟨by decide, h.2.2.1, h.2.2.2.1, h.2.2.2.2.1⟩

/-- C3: while the storage answers its queries, a well-formed id that matches no
stored patient makes each of Get by ID, Update by ID (with any body) and
Delete by ID answer 404 `Patient not found`, the collection being left as it
was. -/
theorem C3_unknown_id_is_404 (fs : Faults) (db : Db) (tok : String) (id : ObjectId)
    (body : PatientBody) (hq : fs.query = none)
    (hc : castObjectId tok = some id) (hn : db.findDoc id = none) :
    router.getById fs db tok = (notFound, db) ∧
    router.put fs db tok body = (notFound, db) ∧
    router.delete fs db tok = (notFound, db) ∧
    notFound.status = 404 := by
  refine ⟨?_, ?_, ?_, rfl⟩
  · simp [router.getById, findById_healthy fs db tok id hc hq, hn]
  · simp [router.put, findById_healthy fs db tok id hc hq, hn]
  · have hd : db.deleteDoc id = db := by
      unfold Db.deleteDoc
      apply List.eraseP_of_forall_not
      intro p hp hpid
      have := List.find?_eq_none.mp hn p hp
      exact this hpid
    simp [router.delete, findByIdAndDelete, hc, hq, hn, hd]

/-- Witness of C3: `idA` is well formed and not stored in a collection that
holds only `johnDoc`. -/
theorem C3_unknown_id_is_404_witness :
    router.getById Faults.healthy [johnDoc] idA.hex = (notFound, [johnDoc]) ∧
    router.put Faults.healthy [johnDoc] idA.hex janeBody = (notFound, [johnDoc]) ∧
    router.delete Faults.healthy [johnDoc] idA.hex = (notFound, [johnDoc]) :=
  have h := C3_unknown_id_is_404 Faults.healthy [johnDoc] idA.hex idA janeBody rfl
    (by decide) (by decide)
  ⟨h.1, h.2.1, h.2.2.1⟩

/-- C1: update by id is a partial merge.  When the PUT on a stored patient `p`
answers 200, the record it answers is the one now stored under the id, and
each of `identifier`, `name`, `gender`, `birthDate` holds the value of the
body when the body supplies a truthy one and the value of `p` otherwise, while
`_id` and `createdAt` are those of `p`; every other stored patient is
untouched.  In particular a body that supplies only a (truthy) gender changes
the gender and leaves `identifier`, `name` and `birthDate` as they were. -/
theorem C1_update_merges_supplied_fields (fs : Faults) (db : Db) (tok : String) (id : ObjectId)
    (p : Patient) (body : PatientBody)
    (hc : castObjectId tok = some id) (hp : db.findDoc id = some p)
    (hok : (router.put fs db tok body).1.status = 200) :
    ∃ rec db',
      router.put fs db tok body = ({ status := 200, body := .patient rec }, db') ∧
      db'.findDoc id = some rec ∧
      (∀ other, other ≠ id → db'.findDoc other = db.findDoc other) ∧
      rec.identifier = (match body.identifier with
        | some v => v
        | none => p.identifier) ∧
      rec.name = (match body.name with
        | some v => v
        | none => p.name) ∧
      rec.gender = (if truthyString body.gender = true then body.gender else p.gender) ∧
      rec.birthDate = (if truthyDate body.birthDate = true then
        body.birthDate.bind DateInput.cast else p.birthDate) ∧
      rec._id = p._id ∧ rec.createdAt = p.createdAt ∧
      (body.identifier = none → body.name = none → body.birthDate = none →
        truthyString body.gender = true →
        rec.gender = body.gender ∧ rec.identifier = p.identifier ∧ rec.name = p.name ∧
          rec.birthDate = p.birthDate) := by
  have hpid : p._id = id := Db.findDoc_id hp
  have hid : (applyUpdate p body).doc._id = id := (applyUpdate_id p body).trans hpid
  -- the query went through
  have hq : fs.query = none := by
    cases hq : fs.query with
    | none => rfl
    | some e =>
      have hs := catchById_status e
      simp [router.put, findById_fault fs db tok id e hc hq] at hok
      omega
  have hfind := findById_healthy fs db tok id hc hq
  -- validation passed
  have hv : (applyUpdate p body).errors = [] := by
    by_contra hv
    have hs := catchById_status (validationError "Patient" (applyUpdate p body).errors)
    simp [router.put, hfind, hp, save_invalid fs db _ false hv] at hok
    omega
  have hcast : (applyUpdate p body).castErrors = [] := (List.append_eq_nil.mp hv).1
  -- the write went through
  have hsv : fs.save = none := by
    cases hsv : fs.save with
    | none => rfl
    | some e =>
      have hs := catchById_status e
      simp [router.put, hfind, hp, save_fault fs db _ false e hv hsv] at hok
      omega
  have hstored : db.findDoc (applyUpdate p body).doc._id = some p := by rw [hid]; exact hp
  have hsave := save_loaded_ok fs db (applyUpdate p body) p hv hsv hstored
  refine ⟨(applyUpdate p body).doc, db.replaceDoc (applyUpdate p body).doc, ?_, ?_, ?_,
    applyUpdate_identifier p body, applyUpdate_name p body, applyUpdate_gender p body,
    applyUpdate_birthDate p body hcast, applyUpdate_id p body, applyUpdate_createdAt p body,
    ?_⟩
  · simp [router.put, hfind, hp, hsave]
  · have := Db.findDoc_replaceDoc db (applyUpdate p body).doc p hstored
    rwa [hid] at this
  · intro other hne
    exact Db.findDoc_replaceDoc_ne db (applyUpdate p body).doc other (by rw [hid]; exact hne)
  · intro h1 h2 h3 h4
    refine ⟨?_, ?_, ?_, ?_⟩
    · rw [applyUpdate_gender, if_pos h4]
    · rw [applyUpdate_identifier, h1]
    · rw [applyUpdate_name, h2]
    · rw [applyUpdate_birthDate p body hcast, h3]; simp [truthyDate]

/-- Witness of C1: a PUT that supplies only `gender: other` on the stored
`johnDoc`. -/
theorem C1_update_merges_supplied_fields_witness :
    (router.put Faults.healthy [johnDoc] idB.hex
        { emptyBody with gender := some "other" }).1.status = 200 ∧
    ∃ rec db',
      router.put Faults.healthy [johnDoc] idB.hex { emptyBody with gender := some "other" } =
        ({ status := 200, body := .patient rec }, db') ∧
      db'.findDoc idB = some rec ∧
      rec.gender = some "other" ∧ rec.identifier = johnDoc.identifier ∧
      rec.name = johnDoc.name ∧ rec.birthDate = johnDoc.birthDate ∧
      rec._id = johnDoc._id ∧ rec.createdAt = johnDoc.createdAt := by
  refine ⟨by decide, ?_⟩
  obtain ⟨rec, db', h1, h2, _, _, _, _, _, h8, h9, h10⟩ :=
    C1_update_merges_supplied_fields Faults.healthy [johnDoc] idB.hex idB johnDoc
      { emptyBody with gender := some "other" } (by decide) (by decide) (by decide)
  obtain ⟨g1, g2, g3, g4⟩ := h10 rfl rfl rfl (by decide)
  exact ⟨rec, db', h1, h2, g1, g2, g3, g4, h8, h9⟩

/-- C4, as stated, fails: a create request whose body has no `name` is
answered 201 and its document is stored, so that the list grows by one. -/
theorem C4_counterexample_no_name_is_created :
    emptyBody.name = none ∧
    router.post Faults.healthy 5 idA [johnDoc] emptyBody =
      ({ status := 201, body := .patient (newPatient 5 idA emptyBody).doc },
        [johnDoc, (newPatient 5 idA emptyBody).doc]) ∧
    (router.getAll Faults.healthy
        (router.post Faults.healthy 5 idA [johnDoc] emptyBody).2).1 ≠
      (router.getAll Faults.healthy [johnDoc]).1 := by
  decide

/-- C4 (amended): a create request whose `name` has an entry whose `family` is
missing or empty (in particular one whose `name[0].family` is empty) is
answered 400 with the validation message and stores nothing: the collection,
and with it the answer of List, is the same after the request as before it,
whatever the storage does. -/
theorem C4_create_rejects_name_without_family (fs : Faults) (now : Int) (newId : ObjectId)
    (db : Db) (body : PatientBody) (names : List HumanName)
    (hn : body.name = some names)
    (hbad : ∃ n ∈ names, n.family = none ∨ n.family = some "") :
    router.post fs now newId db body =
      ({ status := 400,
         body := .message (validationMessage "Patient" (newPatient now newId body).errors) },
        db) ∧
    (∀ fs' : Faults,
      router.getAll fs' (router.post fs now newId db body).2 = router.getAll fs' db) := by
  have hv : (newPatient now newId body).errors ≠ [] := by
    intro hv
    obtain ⟨n, hmem, hfam⟩ := hbad
    have h1 := ((Draft.errors_eq_nil_iff _).mp hv).2.1 n (by simpa [newPatient, hn] using hmem)
    obtain ⟨f, hf, hne⟩ := h1
    rcases hfam with h | h
    · rw [h] at hf; cases hf
    · rw [h] at hf; cases hf; exact hne rfl
  have hpost : router.post fs now newId db body =
      ({ status := 400,
         body := .message (validationMessage "Patient" (newPatient now newId body).errors) },
        db) := by
    simp [router.post, save_invalid fs db _ true hv, validationError]
  exact ⟨hpost, fun fs' => by rw [hpost]⟩

/-- Witness of C4 (amended): `name: [{ family: "" }]`. -/
theorem C4_create_rejects_name_without_family_witness :
    router.post Faults.healthy 5 idA [johnDoc]
        { emptyBody with name := some [{ family := some "", given := [] }] } =
      ({ status := 400,
         body := .message
           "Patient validation failed: name.0.family: Path `family` is required." },
        [johnDoc]) :=
  (C4_create_rejects_name_without_family Faults.healthy 5 idA [johnDoc]
    { emptyBody with name := some [{ family := some "", given := [] }] }
    [{ family := some "", given := [] }] rfl
    ⟨{ family := some "", given := [] }, by simp, Or.inr rfl⟩).1

/-- C5: create / get round trip.  For a valid payload, that is one whose name
entries all have a non-empty `family`, whose gender, if any, is one of the
four values and whose `birthDate`, if any, casts to a date, on a storage that
answers, with a generated id that is well formed and not yet in use: Create
answers 201 with a record that carries the generated id, the creation time
and the four payload fields, and a Get by that id issued next answers 200
with the same record. -/
theorem C5_create_get_round_trip (now : Int) (newId : ObjectId) (db : Db) (body : PatientBody)
    (hnames : ∀ n ∈ body.name.getD [], ∃ f, n.family = some f ∧ f ≠ "")
    (hgender : ∀ g, body.gender = some g → g ∈ genderEnum)
    (hdate : ∀ d, body.birthDate = some d → d.castFails = false)
    (hcanon : castObjectId newId.hex = some newId)
    (hfresh : db.findDoc newId = none) :
    ∃ rec db',
      router.post Faults.healthy now newId db body =
        ({ status := 201, body := .patient rec }, db') ∧
      rec._id = newId ∧ rec.createdAt = now ∧
      rec.identifier = body.identifier.getD [] ∧ rec.name = body.name.getD [] ∧
      rec.gender = body.gender ∧ rec.birthDate = body.birthDate.bind DateInput.cast ∧
      router.getById Faults.healthy db' rec._id.hex =
        ({ status := 200, body := .patient rec }, db') := by
  have hv : (newPatient now newId body).errors = [] :=
    (Draft.errors_eq_nil_iff _).mpr
      ⟨(setDate_errors_eq_nil_iff "birthDate" none body.birthDate).mpr hdate, hnames, hgender⟩
  have hsave := save_new_ok Faults.healthy db (newPatient now newId body) hv rfl hfresh
  have hbirth : (newPatient now newId body).doc.birthDate =
      body.birthDate.bind DateInput.cast := by
    show (setDate "birthDate" none body.birthDate).1 = _
    cases hb : body.birthDate with
    | none => rfl
    | some d => exact setDate_value "birthDate" none d (hdate d hb)
  refine ⟨(newPatient now newId body).doc, db ++ [(newPatient now newId body).doc], ?_, rfl,
    rfl, rfl, rfl, rfl, hbirth, ?_⟩
  · simp [router.post, hsave]
  · have hfound := Db.findDoc_append_new db (newPatient now newId body).doc hfresh
    have hfind := findById_healthy Faults.healthy (db ++ [(newPatient now newId body).doc])
      newId.hex newId hcanon rfl
    have hid : (newPatient now newId body).doc._id = newId := rfl
    rw [hid] at hfound
    simp [router.getById, hid, hfind, hfound]

/-- Witness of C5: the create example of the specification with a birth date
added, on a collection that already holds `johnDoc`. -/
theorem C5_create_get_round_trip_witness :
    ∃ rec db',
      router.post Faults.healthy 5 idA [johnDoc]
          { janeBody with birthDate := some (.text "1990-01-01" (some 631152000000)) } =
        ({ status := 201, body := .patient rec }, db') ∧
      rec._id = idA ∧ rec.createdAt = 5 ∧
      rec.identifier = [] ∧ rec.name = [{ family := some "Doe", given := ["Jane"] }] ∧
      rec.gender = some "female" ∧ rec.birthDate = some 631152000000 ∧
      router.getById Faults.healthy db' rec._id.hex =
        ({ status := 200, body := .patient rec }, db') :=
  C5_create_get_round_trip 5 idA [johnDoc]
    { janeBody with birthDate := some (.text "1990-01-01" (some 631152000000)) }
    (by decide) (by decide) (by decide) (by decide) (by decide)

/-- C6: on a storage that answers, Delete by the id of a stored patient answers
200 `Patient deleted`; afterwards a Get on the same id answers 404, List
answers 200 with exactly one record fewer (the former list without the
deleted record, in the same order), and every other id resolves to the same
patient as before. -/
theorem C6_delete_removes_the_record (db : Db) (tok : String) (id : ObjectId) (p : Patient)
    (hwf : db.WF) (hc : castObjectId tok = some id) (hp : db.findDoc id = some p) :
    ∃ db',
      router.delete Faults.healthy db tok =
        ({ status := 200, body := .message "Patient deleted" }, db') ∧
      router.getById Faults.healthy db' tok = (notFound, db') ∧ notFound.status = 404 ∧
      router.getAll Faults.healthy db = ({ status := 200, body := .patients db }, db) ∧
      router.getAll Faults.healthy db' = ({ status := 200, body := .patients db' }, db') ∧
      db'.length + 1 = db.length ∧
      db' = db.filter (fun q => !(q._id = id)) ∧
      (∀ other, other ≠ id → db'.findDoc other = db.findDoc other) := by
  refine ⟨db.deleteDoc id, ?_, ?_, rfl, rfl, rfl, Db.length_deleteDoc db id p hp,
    Db.deleteDoc_eq_filter db id hwf, fun other h => Db.findDoc_deleteDoc_ne db id other h⟩
  · simp [router.delete, findByIdAndDelete, Faults.healthy, hc, hp]
  · have hfind := findById_healthy Faults.healthy (db.deleteDoc id) tok id hc rfl
    simp [router.getById, hfind, Db.findDoc_deleteDoc_self db id hwf]

/-- Witness of C6: deleting `johnDoc` from a collection of two. -/
theorem C6_delete_removes_the_record_witness :
    Db.WF [janeDoc, johnDoc] ∧
    router.delete Faults.healthy [janeDoc, johnDoc] idB.hex =
      ({ status := 200, body := .message "Patient deleted" }, [janeDoc]) ∧
    router.getById Faults.healthy [janeDoc] idB.hex = (notFound, [janeDoc]) := by
  have hwf : Db.WF [janeDoc, johnDoc] := by decide
  obtain ⟨db', h1, h2, _, _, _, _, h7, _⟩ :=
    C6_delete_removes_the_record [janeDoc, johnDoc] idB.hex idB johnDoc hwf (by decide)
      (by decide)
  have hdb : db' = [janeDoc] := by rw [h7]; decide
  subst hdb
  exact ⟨hwf, h1, h2⟩

/-- C9: a create payload whose gender is outside male, female, other, unknown is
answered 400 with the message of the validation error, which reports the
`gender` path, and nothing is stored, whatever the storage does.  A payload
that omits gender or supplies one of the four values meets no gender error:
its validation result, and the status Create answers with, are those of the
same payload without gender. -/
theorem C9_gender_enum_on_create (fs : Faults) (now : Int) (newId : ObjectId) (db : Db)
    (body : PatientBody) :
    (∀ g, body.gender = some g → g ∉ genderEnum →
      router.post fs now newId db body =
        ({ status := 400,
           body := .message (validationError "Patient"
             (newPatient now newId body).errors).message }, db) ∧
      genderNotInEnum g ∈ (newPatient now newId body).errors) ∧
    ((body.gender = none ∨ ∃ g, body.gender = some g ∧ g ∈ genderEnum) →
      genderErrors body.gender = [] ∧
      (newPatient now newId body).errors =
        (newPatient now newId { body with gender := none }).errors ∧
      (router.post fs now newId db body).1.status =
        (router.post fs now newId db { body with gender := none }).1.status) := by
  constructor
  · intro g hg hnot
    have hmem : genderNotInEnum g ∈ (newPatient now newId body).errors := by
      simp [Draft.errors, Patient.validate, newPatient, hg, genderErrors, hnot]
    have hv : (newPatient now newId body).errors ≠ [] := List.ne_nil_of_mem hmem
    exact ⟨by simp [router.post, save_invalid fs db _ true hv], hmem⟩
  · intro h
    have hge : genderErrors body.gender = [] := by
      rcases h with h | ⟨g, h, hin⟩
      · simp [h, genderErrors]
      · simp [h, genderErrors, hin]
    have hval : (newPatient now newId body).errors =
        (newPatient now newId { body with gender := none }).errors := by
      show (setDate "birthDate" none body.birthDate).2 ++
          (nameErrors 0 (body.name.getD []) ++ genderErrors body.gender) =
        (setDate "birthDate" none body.birthDate).2 ++
          (nameErrors 0 (body.name.getD []) ++ genderErrors none)
      rw [hge]
      rfl
    refine ⟨hge, hval, ?_⟩
    have hid : (newPatient now newId body).doc._id =
        (newPatient now newId { body with gender := none }).doc._id := rfl
    simp only [router.post, save]
    rw [← hval, ← hid]
    by_cases hv : (newPatient now newId body).errors = []
    · simp only [hv, if_true]
      cases fs.save with
      | some e => rfl
      | none =>
        cases Db.findDoc db (newPatient now newId body).doc._id <;> rfl
    · simp [hv]

/-- Witness of C9: the gender `robot` is rejected, the gender `female` is not. -/
theorem C9_gender_enum_on_create_witness :
    router.post Faults.healthy 5 idA [johnDoc] { janeBody with gender := some "robot" } =
      ({ status := 400,
         body := .message
           "Patient validation failed: gender: `robot` is not a valid enum value for path `gender`." },
        [johnDoc]) ∧
    (router.post Faults.healthy 5 idA [johnDoc] janeBody).1.status = 201 := by
  have h := C9_gender_enum_on_create Faults.healthy 5 idA [johnDoc]
    { janeBody with gender := some "robot" }
  have h1 := (h.1 "robot" rfl (by decide)).1
  exact ⟨h1, by decide⟩

/-- C7: the claim fails on the code for Create.  While the storage refuses the
connection, List, Get by ID, Update by ID and Delete by ID each answer 500
`Server Error`; Create, on a payload that passes validation, answers 400
with the text of the underlying error. -/
theorem C7_create_answers_storage_failure_with_400 :
    (newPatient 5 idA janeBody).errors = [] ∧
    networkError.kind ≠ some "ObjectId" ∧
    router.getAll { query := some networkError, save := some networkError } [johnDoc] =
      ({ status := 500, body := .message "Server Error" }, [johnDoc]) ∧
    router.getById { query := some networkError, save := some networkError } [johnDoc]
        idB.hex =
      ({ status := 500, body := .message "Server Error" }, [johnDoc]) ∧
    router.put { query := some networkError, save := some networkError } [johnDoc] idB.hex
        janeBody =
      ({ status := 500, body := .message "Server Error" }, [johnDoc]) ∧
    router.put { query := none, save := some networkError } [johnDoc] idB.hex janeBody =
      ({ status := 500, body := .message "Server Error" }, [johnDoc]) ∧
    router.delete { query := some networkError, save := some networkError } [johnDoc]
        idB.hex =
      ({ status := 500, body := .message "Server Error" }, [johnDoc]) ∧
    router.post { query := some networkError, save := some networkError } 5 idA [johnDoc]
        janeBody =
      ({ status := 400, body := .message "connect ECONNREFUSED 127.0.0.1:27017" },
        [johnDoc]) := by
  decide

/-- C8: when the lookup of a stored patient goes through and the merge of the
body into that patient fails validation (a gender outside the enum, a name
entry without family, and likewise a birth date that cannot be cast), Update
by ID answers 500 `Server Error`, not 400, and the collection, hence the
stored record, is left as it was. -/
theorem C8_update_validation_failure_is_500 (fs : Faults) (db : Db) (tok : String)
    (id : ObjectId) (p : Patient) (body : PatientBody)
    (hq : fs.query = none) (hc : castObjectId tok = some id) (hp : db.findDoc id = some p)
    (hv : (applyUpdate p body).errors ≠ []) :
    router.put fs db tok body = ({ status := 500, body := .message "Server Error" }, db) ∧
    (router.put fs db tok body).1.status ≠ 400 ∧
    (router.put fs db tok body).2.findDoc id = some p := by
  have hput : router.put fs db tok body =
      ({ status := 500, body := .message "Server Error" }, db) := by
    simp [router.put, findById_healthy fs db tok id hc hq, hp, save_invalid fs db _ false hv,
      catchById, validationError, serverError]
  refine ⟨hput, ?_, ?_⟩
  · rw [hput]
    intro h
    cases h
  · rw [hput]; exact hp

/-- Witness of C8: a PUT with `gender: robot`, one with a name entry that has
no family, and one with a birth date no `Date` can hold, on the stored
`johnDoc`. -/
theorem C8_update_validation_failure_is_500_witness :
    router.put Faults.healthy [janeDoc, johnDoc] idB.hex
        { emptyBody with gender := some "robot" } =
      ({ status := 500, body := .message "Server Error" }, [janeDoc, johnDoc]) ∧
    router.put Faults.healthy [janeDoc, johnDoc] idB.hex
        { emptyBody with name := some [{ family := none, given := ["J"] }] } =
      ({ status := 500, body := .message "Server Error" }, [janeDoc, johnDoc]) ∧
    router.put Faults.healthy [janeDoc, johnDoc] idB.hex
        { emptyBody with birthDate := some (.millis 10000000000000000) } =
      ({ status := 500, body := .message "Server Error" }, [janeDoc, johnDoc]) :=
  ⟨(C8_update_validation_failure_is_500 Faults.healthy [janeDoc, johnDoc] idB.hex idB johnDoc
      { emptyBody with gender := some "robot" } rfl (by decide) (by decide) (by decide)).1,
   (C8_update_validation_failure_is_500 Faults.healthy [janeDoc, johnDoc] idB.hex idB johnDoc
      { emptyBody with name := some [{ family := none, given := ["J"] }] } rfl (by decide)
      (by decide) (by decide)).1,
   (C8_update_validation_failure_is_500 Faults.healthy [janeDoc, johnDoc] idB.hex idB johnDoc
      { emptyBody with birthDate := some (.millis 10000000000000000) } rfl (by decide)
      (by decide) (by decide)).1⟩

/-- C10, as stated, fails: a candidate whose subject is a well-formed id and
whose status is omitted, but whose `effectiveDateTime` is a number no date can
hold, does not pass validation; the error reported is the failed cast of that
path. -/
theorem C10_counterexample_uncastable_date :
    (∃ tok id, obsBadDate.subject = some tok ∧ castObjectId tok = some id) ∧
    obsBadDate.status.getD "final" ∈ statusEnum ∧
    obsBadDate.validate ≠ [] ∧
    obsBadDate.validate.map (fun e => (e.path, e.kind)) = [("effectiveDateTime", "date")] :=
  ⟨⟨"0123456789abcdef01234567", idA, rfl, by decide⟩, by decide, by decide, by decide⟩

/-- C10 (amended): an observation passes validation exactly when `subject` is
supplied and is a well-formed id, `status`, taken as `final` when omitted, is
one of the eight listed values, and `effectiveDateTime` and `issued`, when
supplied, cast to a date.  No field other than `subject` is required: a
candidate that supplies nothing else passes as soon as its subject is well
formed.  `code` and `valueQuantity` have no effect, nor has the collection of
patients: the condition is the same when the subject names no stored
patient. -/
theorem C10_observation_validation (o : ObservationInput) :
    (o.validate = [] ↔
      (∃ tok id, o.subject = some tok ∧ castObjectId tok = some id) ∧
      o.status.getD "final" ∈
        ["registered", "preliminary", "final", "amended", "corrected", "cancelled",
          "entered-in-error", "unknown"] ∧
      (∀ d, o.effectiveDateTime = some d → d.castFails = false) ∧
      (∀ d, o.issued = some d → d.castFails = false)) ∧
    (ObservationInput.validate
        { status := none, code := none, subject := o.subject, effectiveDateTime := none,
          valueQuantity := none, issued := none } = [] ↔
      ∃ tok id, o.subject = some tok ∧ castObjectId tok = some id) ∧
    (∀ code vq,
      ObservationInput.validate { o with code := code, valueQuantity := vq } = o.validate) ∧
    (∀ (db : Db) (tok : String) (id : ObjectId),
      o.subject = some tok → castObjectId tok = some id → db.findDoc id = none →
      (o.validate = [] ↔
        o.status.getD "final" ∈ statusEnum ∧
        (∀ d, o.effectiveDateTime = some d → d.castFails = false) ∧
        (∀ d, o.issued = some d → d.castFails = false))) := by
  have hsub : ∀ s : Option String, subjectErrors s = [] ↔
      ∃ tok id, s = some tok ∧ castObjectId tok = some id := by
    intro s
    cases s with
    | none => simp [subjectErrors]
    | some tok =>
      cases hc : castObjectId tok with
      | none => simp [subjectErrors, hc]
      | some id => simp [subjectErrors, hc]
  have hst : ∀ s : Option String,
      statusErrors (s.getD "final") = [] ↔ s.getD "final" ∈ statusEnum := by
    intro s
    unfold statusErrors
    by_cases h : s.getD "final" ∈ statusEnum <;> simp [h]
  have hiff : ∀ o : ObservationInput, o.validate = [] ↔
      (∃ tok id, o.subject = some tok ∧ castObjectId tok = some id) ∧
      o.status.getD "final" ∈ statusEnum ∧
      (∀ d, o.effectiveDateTime = some d → d.castFails = false) ∧
      (∀ d, o.issued = some d → d.castFails = false) := by
    intro o
    unfold ObservationInput.validate ObservationInput.effectiveStatus dateErrors
    rw [List.append_eq_nil, List.append_eq_nil, List.append_eq_nil, hst, hsub,
      setDate_errors_eq_nil_iff, setDate_errors_eq_nil_iff]
    tauto
  refine ⟨hiff o, ?_, fun _ _ => rfl, ?_⟩
  · rw [hiff]
    constructor
    · intro h; exact h.1
    · intro h
      have hfinal : (none : Option String).getD "final" ∈ statusEnum := by decide
      exact ⟨h, hfinal, fun _ hd => (by cases hd), fun _ hd => (by cases hd)⟩
  · intro db tok id hs hc _
    rw [hiff]
    constructor
    · intro h; exact h.2
    · intro h; exact ⟨⟨tok, id, hs, hc⟩, h⟩

/-- Witness of C10 (amended): `obsJane` passes, with no patient stored at all. -/
theorem C10_observation_validation_witness :
    obsJane.validate = [] ∧ Db.findDoc [] idA = none :=
  ⟨((C10_observation_validation obsJane).2.2.2 [] "0123456789abcdef01234567" idA rfl
      (by decide) rfl).mpr ⟨by decide, by decide, by decide⟩, rfl⟩

end NewProject
